import Mathlib

/-!
Verification of the MORUS retirement-planning core against its specification.

The bracket allocator is embedded from `src/app.py`, section
"--- 7. TAX BUILDING VISUALIZER ---" (the `BRACKETS` table and the
`building_data` loop).  Monetary amounts are modelled as rationals: the
Python program computes them with `+`, `-`, `min`, `max` and division by 100
only, so rational arithmetic reproduces it exactly.
-/

namespace Morus

/-- One row of the `BRACKETS` table of `src/app.py`: keys `Floor`, `low`,
`top`, `rate`. -/
structure Bracket where
  floor : String
  low : ℚ
  top : ℚ
  rate : ℚ
deriving DecidableEq, Repr

/-- The hard-coded bracket table `BRACKETS` of `src/app.py` (lines 172-179). -/
def BRACKETS : List Bracket :=
  [⟨"Floor 1", 0, 53891, 0.1905⟩,
   ⟨"Floor 2", 53891, 58523, 0.2315⟩,
   ⟨"Floor 3", 58523, 94907, 0.2965⟩,
   ⟨"Floor 4", 94907, 117045, 0.3148⟩,
   ⟨"Floor 5", 117045, 181440, 0.4497⟩,
   ⟨"Penthouse", 181440, 258482, 0.4829⟩]

/-- One element appended to `building_data` in `src/app.py` (lines 189/191):
keys `Floor`, `Amount`, `Status`, `Rate`.  The Python code stores the rate as
a formatted percentage string; we keep the underlying rational, which carries
the same information. -/
structure LineItem where
  floor : String
  amount : ℚ
  status : String
  rate : ℚ
deriving DecidableEq, Repr

/-- `total_in_bracket = min(total_gross_income, b['top']) - b['low']`
(`src/app.py` line 183). -/
def total_in_bracket (gross : ℚ) (b : Bracket) : ℚ :=
  min gross b.top - b.low

/-- `taxed_amt = max(0, min(b['top'], taxable_income) - b['low'])`
(`src/app.py` line 185). -/
def taxed_amt (taxable : ℚ) (b : Bracket) : ℚ :=
  max 0 (min b.top taxable - b.low)

/-- `shielded_amt = total_in_bracket - taxed_amt` (`src/app.py` line 186). -/
def shielded_amt (gross taxable : ℚ) (b : Bracket) : ℚ :=
  total_in_bracket gross b - taxed_amt taxable b

/-- The line items one iteration of the `building_data` loop appends for
bracket `b` (`src/app.py` lines 183-191): nothing when
`total_in_bracket <= 0` (the `continue`), otherwise a "Shielded" item when
`shielded_amt > 0` followed by a "Taxed" item when `taxed_amt > 0`. -/
def bracketItems (gross taxable : ℚ) (b : Bracket) : List LineItem :=
  if total_in_bracket gross b ≤ 0 then []
  else
    (if shielded_amt gross taxable b > 0 then
      [⟨b.floor, shielded_amt gross taxable b, "Shielded", b.rate⟩]
    else []) ++
    (if taxed_amt taxable b > 0 then
      [⟨b.floor, taxed_amt taxable b, "Taxed", b.rate⟩]
    else [])

/-- The full `building_data` list (`src/app.py` lines 181-191): the loop
visits the brackets in table order and appends each bracket's items, which
is concatenation of the per-bracket item lists. -/
def building_data (gross taxable : ℚ) : List Bracket → List LineItem
  | [] => []
  | b :: bs => bracketItems gross taxable b ++ building_data gross taxable bs

/-- Sum of the amounts of all "Shielded" line items of `building_data`. -/
def totalShielded (gross taxable : ℚ) (bs : List Bracket) : ℚ :=
  (((building_data gross taxable bs).filter
      fun it => it.status == "Shielded").map fun it => it.amount).sum

/-- Sum of the amounts of all "Taxed" line items of `building_data`. -/
def totalTaxed (gross taxable : ℚ) (bs : List Bracket) : ℚ :=
  (((building_data gross taxable bs).filter
      fun it => it.status == "Taxed").map fun it => it.amount).sum

/-- Modelled from the spec: the fixed effective withdrawal tax rate of the
Projection Simulator (spec §4.2, "0.25 in the reference behavior").  The
simulator's code is part of the repository but is not under `src/`
(`src/app.py` holds only the UI and the bracket allocator). -/
def effectiveWithdrawalTaxRate : ℚ := 0.25

/-- Modelled from the spec: one `ProjectionState` record (spec §3). -/
structure ProjectionState where
  yearIndex : ℕ
  age : ℕ
  calendarYear : ℕ
  balanceA : ℚ
  balanceB : ℚ
  totalWealth : ℚ
  purchasingPower : ℚ
deriving DecidableEq, Repr

/-- Modelled from the spec: year-by-year compounding of one balance
(spec §4.2: `balance[y] = balance[y-1] * (1 + growthRate)`, year 0
unmodified). -/
def balanceAfter (start g : ℚ) : ℕ → ℚ
  | 0 => start
  | y + 1 => balanceAfter start g y * (1 + g)

/-- Modelled from the spec: the `ProjectionState` of year `y`
(spec §4.2: `totalWealth[y] = balanceA[y] * (1 - effectiveWithdrawalTaxRate)
+ balanceB[y]`, `purchasingPower[y] = totalWealth[y] / (1 + inflationRate)^y`). -/
def projectState (pA pB g infl : ℚ) (startAge startYear y : ℕ) :
    ProjectionState :=
  let bA := balanceAfter pA g y
  let bB := balanceAfter pB g y
  let tw := bA * (1 - effectiveWithdrawalTaxRate) + bB
  ⟨y, startAge + y, startYear + y, bA, bB, tw, tw / (1 + infl) ^ y⟩

/-- Modelled from the spec: the Projection Simulator `project`
(spec §4.2 contract), producing the states of years `0 .. horizonYears`
in order.  Its code is part of the repository but not under `src/`. -/
def project (pA pB g infl : ℚ) (horizonYears startAge startYear : ℕ) :
    List ProjectionState :=
  (List.range (horizonYears + 1)).map
    (projectState pA pB g infl startAge startYear)

/- ------------------------------------------------------------------ -/
/- Helper lemmas                                                       -/
/- ------------------------------------------------------------------ -/

theorem taxed_amt_nonneg (taxable : ℚ) (b : Bracket) : 0 ≤ taxed_amt taxable b :=
  le_max_left 0 _

theorem taxed_amt_mono (b : Bracket) {t1 t2 : ℚ} (h : t1 ≤ t2) :
    taxed_amt t1 b ≤ taxed_amt t2 b :=
  max_le_max le_rfl (sub_le_sub_right (min_le_min le_rfl h) b.low)

theorem bracketItems_of_nonpos {gross : ℚ} (taxable : ℚ) {b : Bracket}
    (h : total_in_bracket gross b ≤ 0) : bracketItems gross taxable b = [] := by
  simp [bracketItems, h]

theorem mem_building_data {gross taxable : ℚ} {bs : List Bracket}
    {it : LineItem} :
    it ∈ building_data gross taxable bs ↔
      ∃ b ∈ bs, it ∈ bracketItems gross taxable b := by
  induction bs with
  | nil => simp [building_data]
  | cons b bs ih =>
    simp only [building_data, List.mem_append, ih, List.mem_cons]
    constructor
    · rintro (h | ⟨c, hc, hit⟩)
      · exact ⟨b, Or.inl rfl, h⟩
      · exact ⟨c, Or.inr hc, hit⟩
    · rintro ⟨c, (rfl | hc), hit⟩
      · exact Or.inl hit
      · exact Or.inr ⟨c, hc, hit⟩

theorem taxed_beq_shielded : (("Taxed" : String) == "Shielded") = false := by
  decide

theorem shielded_beq_taxed : (("Shielded" : String) == "Taxed") = false := by
  decide

theorem taxed_amt_of_nonpos {taxable : ℚ} {b : Bracket} (ht : taxable ≤ 0)
    (hlow : 0 ≤ b.low) : taxed_amt taxable b = 0 := by
  have h : min b.top taxable - b.low ≤ 0 :=
    sub_nonpos.mpr (le_trans (le_trans (min_le_right _ _) ht) hlow)
  exact max_eq_left h

theorem total_le_taxed {gross taxable : ℚ} (b : Bracket) (h : gross ≤ taxable) :
    total_in_bracket gross b ≤ taxed_amt taxable b := by
  unfold total_in_bracket taxed_amt
  calc min gross b.top - b.low ≤ min b.top taxable - b.low := by
        rw [min_comm gross b.top]
        exact sub_le_sub_right (min_le_min le_rfl h) b.low
    _ ≤ max 0 (min b.top taxable - b.low) := le_max_right _ _

theorem no_taxed_item {gross taxable : ℚ} {b : Bracket}
    (h : taxed_amt taxable b = 0) :
    ∀ it ∈ bracketItems gross taxable b, it.status ≠ "Taxed" := by
  intro it hit
  unfold bracketItems at hit
  split_ifs at hit with h1 h2 h3 h4
  · simp at hit
  · rw [h] at h3
    exact absurd h3 (lt_irrefl 0)
  · simp at hit
    subst hit
    show ("Shielded" : String) ≠ "Taxed"
    decide
  · rw [h] at h4
    exact absurd h4 (lt_irrefl 0)
  · simp at hit

theorem no_shielded_item {gross taxable : ℚ} {b : Bracket}
    (h : shielded_amt gross taxable b ≤ 0) :
    ∀ it ∈ bracketItems gross taxable b, it.status ≠ "Shielded" := by
  intro it hit
  unfold bracketItems at hit
  split_ifs at hit with h1 h2 h3 h4
  · simp at hit
  · exact absurd h2 (not_lt.mpr h)
  · exact absurd h2 (not_lt.mpr h)
  · simp at hit
    subst hit
    show ("Taxed" : String) ≠ "Shielded"
    decide
  · simp at hit

theorem building_data_eq_nil {gross taxable : ℚ} {bs : List Bracket}
    (h : ∀ b ∈ bs, total_in_bracket gross b ≤ 0) :
    building_data gross taxable bs = [] := by
  induction bs with
  | nil => rfl
  | cons b bs ih =>
    simp only [building_data]
    rw [bracketItems_of_nonpos taxable (h b (List.mem_cons_self b bs)),
      ih fun c hc => h c (List.mem_cons_of_mem b hc)]
    rfl

/-- C1: for every bracket touched by income (`total_in_bracket > 0`), the
computed shielded amount plus the computed taxed amount equals exactly the
bracket's occupied width `min(gross, top) - low`, for all inputs. -/
theorem conservation_per_bracket (gross taxable : ℚ) (b : Bracket)
    (h : 0 < total_in_bracket gross b) :
    shielded_amt gross taxable b + taxed_amt taxable b =
      total_in_bracket gross b := by
  unfold shielded_amt
  ring

/-- Witness for C1 at `gross = 80000`, `taxable = 60000`, bracket Floor 1. -/
theorem conservation_per_bracket_witness :
    0 < total_in_bracket 80000 ⟨"Floor 1", 0, 53891, 0.1905⟩ ∧
      shielded_amt 80000 60000 ⟨"Floor 1", 0, 53891, 0.1905⟩ +
          taxed_amt 60000 ⟨"Floor 1", 0, 53891, 0.1905⟩ =
        total_in_bracket 80000 ⟨"Floor 1", 0, 53891, 0.1905⟩ :=
  ⟨by norm_num [total_in_bracket],
   conservation_per_bracket 80000 60000 _ (by norm_num [total_in_bracket])⟩

/-- C4: full-shield boundary — for every gross income, if
`taxable_income ≤ 0` then every bracket of the program's table computes
`taxed_amt = 0` and `building_data` contains no "Taxed" line item. -/
theorem full_shield (gross taxable : ℚ) (h : taxable ≤ 0) :
    (∀ b ∈ BRACKETS, taxed_amt taxable b = 0) ∧
      ∀ it ∈ building_data gross taxable BRACKETS, it.status ≠ "Taxed" := by
  have hlow : ∀ b ∈ BRACKETS, (0 : ℚ) ≤ b.low := by decide
  refine ⟨fun b hb => taxed_amt_of_nonpos h (hlow b hb), fun it hit => ?_⟩
  obtain ⟨b, hb, hmem⟩ := mem_building_data.mp hit
  exact no_taxed_item (taxed_amt_of_nonpos h (hlow b hb)) it hmem

/-- Witness for C4 at `gross = 80000`, `taxable = 0`. -/
theorem full_shield_witness :
    (0 : ℚ) ≤ 0 ∧
      ((∀ b ∈ BRACKETS, taxed_amt 0 b = 0) ∧
        ∀ it ∈ building_data 80000 0 BRACKETS, it.status ≠ "Taxed") :=
  ⟨le_refl 0, full_shield 80000 0 (le_refl 0)⟩

/-- C5: no-shield boundary — for every gross income and every bracket list,
if `taxable_income ≥ gross_income` then every bracket's computed shielded
amount is `≤ 0` (for an occupied bracket, `taxed_amt` covers the whole
occupied width) and `building_data` contains no "Shielded" line item. -/
theorem no_shield (gross taxable : ℚ) (bs : List Bracket)
    (h : gross ≤ taxable) :
    (∀ b : Bracket, shielded_amt gross taxable b ≤ 0) ∧
      ∀ it ∈ building_data gross taxable bs, it.status ≠ "Shielded" := by
  have hsh : ∀ b : Bracket, shielded_amt gross taxable b ≤ 0 := fun b =>
    sub_nonpos.mpr (total_le_taxed b h)
  refine ⟨hsh, fun it hit => ?_⟩
  obtain ⟨b, _, hmem⟩ := mem_building_data.mp hit
  exact no_shielded_item (hsh b) it hmem

/-- Witness for C5 at `gross = 80000`, `taxable = 80000`, the program's
bracket table. -/
theorem no_shield_witness :
    (80000 : ℚ) ≤ 80000 ∧
      ((∀ b : Bracket, shielded_amt 80000 80000 b ≤ 0) ∧
        ∀ it ∈ building_data 80000 80000 BRACKETS, it.status ≠ "Shielded") :=
  ⟨le_refl 80000, no_shield 80000 80000 BRACKETS (le_refl 80000)⟩

/-- C7: a bracket with non-positive occupied width contributes no line
items, and with `gross_income = 0` the allocator returns the empty list on
the program's bracket table, for every taxable income. -/
theorem unoccupied_omitted (gross taxable : ℚ) (b : Bracket)
    (h : total_in_bracket gross b ≤ 0) :
    bracketItems gross taxable b = [] ∧
      building_data 0 taxable BRACKETS = [] := by
  refine ⟨bracketItems_of_nonpos taxable h, building_data_eq_nil ?_⟩
  have hbs : ∀ b ∈ BRACKETS, (0 : ℚ) ≤ b.low ∧ (0 : ℚ) ≤ b.top := by decide
  intro c hc
  unfold total_in_bracket
  have := hbs c hc
  calc min (0 : ℚ) c.top - c.low ≤ 0 - c.low :=
        sub_le_sub_right (min_le_left 0 c.top) c.low
    _ ≤ 0 := by linarith [this.1]

/-- Witness for C7 at `gross = 0`, `taxable = 5`, bracket Floor 2 (which
lies entirely above a gross income of 0). -/
theorem unoccupied_omitted_witness :
    total_in_bracket 0 ⟨"Floor 2", 53891, 58523, 0.2315⟩ ≤ 0 ∧
      (bracketItems 0 5 ⟨"Floor 2", 53891, 58523, 0.2315⟩ = [] ∧
        building_data 0 5 BRACKETS = []) :=
  ⟨by norm_num [total_in_bracket],
   unoccupied_omitted 0 5 _ (by norm_num [total_in_bracket])⟩

/-- C10: negative gross income — for every `gross_income < 0`, every bracket
of the program's table has non-positive occupied width, so `building_data`
is empty (no negative amounts are emitted), for every taxable income. -/
theorem negative_gross_empty (gross taxable : ℚ) (h : gross < 0) :
    (∀ b ∈ BRACKETS, total_in_bracket gross b ≤ 0) ∧
      building_data gross taxable BRACKETS = [] := by
  have hbs : ∀ b ∈ BRACKETS, (0 : ℚ) ≤ b.low ∧ (0 : ℚ) ≤ b.top := by decide
  have hocc : ∀ b ∈ BRACKETS, total_in_bracket gross b ≤ 0 := by
    intro c hc
    unfold total_in_bracket
    have := hbs c hc
    calc min gross c.top - c.low ≤ gross - c.low :=
          sub_le_sub_right (min_le_left gross c.top) c.low
      _ ≤ 0 := by linarith [this.1]
  exact ⟨hocc, building_data_eq_nil hocc⟩

/-- Witness for C10 at `gross = -1`, `taxable = 0`. -/
theorem negative_gross_empty_witness :
    (-1 : ℚ) < 0 ∧
      ((∀ b ∈ BRACKETS, total_in_bracket (-1) b ≤ 0) ∧
        building_data (-1) 0 BRACKETS = []) :=
  ⟨by norm_num, negative_gross_empty (-1) 0 (by norm_num)⟩

theorem shielded_ne_taxed : ("Shielded" : String) ≠ "Taxed" := by decide

theorem taxed_ne_shielded : ("Taxed" : String) ≠ "Shielded" := by decide

/-- C8: emission order and emission conditions — for every occupied bracket,
a "Shielded" line item is present iff `shielded_amt > 0`, a "Taxed" line
item is present iff `taxed_amt > 0`, and when both are positive the bracket
emits exactly the "Shielded" item immediately followed by the "Taxed"
item. -/
theorem emission_order (gross taxable : ℚ) (b : Bracket)
    (h : 0 < total_in_bracket gross b) :
    ((∃ it ∈ bracketItems gross taxable b, it.status = "Shielded") ↔
        0 < shielded_amt gross taxable b) ∧
      ((∃ it ∈ bracketItems gross taxable b, it.status = "Taxed") ↔
        0 < taxed_amt taxable b) ∧
      (0 < shielded_amt gross taxable b → 0 < taxed_amt taxable b →
        bracketItems gross taxable b =
          [⟨b.floor, shielded_amt gross taxable b, "Shielded", b.rate⟩,
           ⟨b.floor, taxed_amt taxable b, "Taxed", b.rate⟩]) := by
  unfold bracketItems
  rw [if_neg (not_le.mpr h)]
  by_cases hs : 0 < shielded_amt gross taxable b <;>
    by_cases ht : 0 < taxed_amt taxable b
  · rw [if_pos hs, if_pos ht]
    refine ⟨iff_of_true
      ⟨⟨b.floor, shielded_amt gross taxable b, "Shielded", b.rate⟩, by simp, rfl⟩
      hs,
      iff_of_true
        ⟨⟨b.floor, taxed_amt taxable b, "Taxed", b.rate⟩, by simp, rfl⟩ ht,
      fun _ _ => rfl⟩
  · rw [if_pos hs, if_neg ht]
    refine ⟨iff_of_true
      ⟨⟨b.floor, shielded_amt gross taxable b, "Shielded", b.rate⟩, by simp, rfl⟩
      hs,
      iff_of_false ?_ ht, fun _ hc => absurd hc ht⟩
    rintro ⟨it, hmem, hstat⟩
    simp at hmem
    subst hmem
    exact shielded_ne_taxed hstat
  · rw [if_neg hs, if_pos ht]
    refine ⟨iff_of_false ?_ hs,
      iff_of_true
        ⟨⟨b.floor, taxed_amt taxable b, "Taxed", b.rate⟩, by simp, rfl⟩ ht,
      fun hc _ => absurd hc hs⟩
    rintro ⟨it, hmem, hstat⟩
    simp at hmem
    subst hmem
    exact taxed_ne_shielded hstat
  · rw [if_neg hs, if_neg ht]
    exact ⟨iff_of_false (by simp) hs, iff_of_false (by simp) ht,
      fun hc _ => absurd hc hs⟩

/-- Witness for C8 at `gross = 80000`, `taxable = 60000`, bracket Floor 3,
where both a shielded and a taxed portion are positive. -/
theorem emission_order_witness :
    0 < total_in_bracket 80000 ⟨"Floor 3", 58523, 94907, 0.2965⟩ ∧
      (((∃ it ∈ bracketItems 80000 60000 ⟨"Floor 3", 58523, 94907, 0.2965⟩,
            it.status = "Shielded") ↔
          0 < shielded_amt 80000 60000 ⟨"Floor 3", 58523, 94907, 0.2965⟩) ∧
        ((∃ it ∈ bracketItems 80000 60000 ⟨"Floor 3", 58523, 94907, 0.2965⟩,
            it.status = "Taxed") ↔
          0 < taxed_amt 60000 ⟨"Floor 3", 58523, 94907, 0.2965⟩) ∧
        (0 < shielded_amt 80000 60000 ⟨"Floor 3", 58523, 94907, 0.2965⟩ →
          0 < taxed_amt 60000 ⟨"Floor 3", 58523, 94907, 0.2965⟩ →
          bracketItems 80000 60000 ⟨"Floor 3", 58523, 94907, 0.2965⟩ =
            [⟨"Floor 3",
              shielded_amt 80000 60000 ⟨"Floor 3", 58523, 94907, 0.2965⟩,
              "Shielded", 0.2965⟩,
             ⟨"Floor 3", taxed_amt 60000 ⟨"Floor 3", 58523, 94907, 0.2965⟩,
              "Taxed", 0.2965⟩])) :=
  ⟨by norm_num [total_in_bracket],
   emission_order 80000 60000 _ (by norm_num [total_in_bracket])⟩

/-- C9: the program's bracket table is contiguous (`top[i] = low[i+1]`),
strictly ascending, each bracket has `low < top`, and each marginal rate
lies in `[0, 1)`. -/
theorem bracket_table_invariant :
    List.Chain' (fun a b => a.top = b.low ∧ a.low < b.low) BRACKETS ∧
      ∀ b ∈ BRACKETS, b.low < b.top ∧ 0 ≤ b.rate ∧ b.rate < 1 := by
  constructor
  · norm_num [BRACKETS, List.chain'_cons]
  · intro b hb
    simp only [BRACKETS, List.mem_cons, List.not_mem_nil, or_false] at hb
    rcases hb with rfl | rfl | rfl | rfl | rfl | rfl <;> norm_num

/-- C2 counterexample: at `gross = 10000`, `taxable = 60000`, bracket
Floor 1 is occupied with width 10000, yet the program computes
`taxed_amt = 53891`, which exceeds the occupied width — the code never
clamps the taxed amount to `[0, occupied]` from above, and the
over-occupied "Taxed" line item is emitted. -/
theorem taxed_clamp_counterexample :
    0 < total_in_bracket 10000 ⟨"Floor 1", 0, 53891, 0.1905⟩ ∧
      total_in_bracket 10000 ⟨"Floor 1", 0, 53891, 0.1905⟩ <
        taxed_amt 60000 ⟨"Floor 1", 0, 53891, 0.1905⟩ ∧
      (⟨"Floor 1", 53891, "Taxed", 0.1905⟩ : LineItem) ∈
        building_data 10000 60000 BRACKETS := by
  have hlist : building_data 10000 60000 BRACKETS =
      [⟨"Floor 1", 53891, "Taxed", 0.1905⟩] := by
    norm_num [building_data, bracketItems, BRACKETS, total_in_bracket,
      taxed_amt, shielded_amt, min_def, max_def]
  refine ⟨?_, ?_, ?_⟩
  · norm_num [total_in_bracket, min_def]
  · norm_num [total_in_bracket, taxed_amt, min_def, max_def]
  · rw [hlist]
    exact List.mem_singleton.mpr rfl

/-- C2 (amended): `taxed_amt` is `max(0, min(top, taxable) - low)` with a
lower clamp only — it is always non-negative, and whenever
`taxable ≤ gross` it does not exceed the occupied width; no upper clamp is
applied, so for `taxable > gross` it can exceed the occupied width. -/
theorem taxed_amt_amended (gross taxable : ℚ) (b : Bracket) :
    taxed_amt taxable b = max 0 (min b.top taxable - b.low) ∧
      0 ≤ taxed_amt taxable b ∧
      (taxable ≤ gross →
        taxed_amt taxable b ≤ max 0 (total_in_bracket gross b)) := by
  refine ⟨rfl, taxed_amt_nonneg taxable b, fun h => ?_⟩
  unfold taxed_amt total_in_bracket
  rw [min_comm gross b.top]
  exact max_le_max le_rfl (sub_le_sub_right (min_le_min le_rfl h) b.low)

/-- Witness for the amended C2 at `gross = 80000`, `taxable = 60000`,
bracket Floor 1. -/
theorem taxed_amt_amended_witness :
    (60000 : ℚ) ≤ 80000 ∧
      taxed_amt 60000 ⟨"Floor 1", 0, 53891, 0.1905⟩ ≤
        max 0 (total_in_bracket 80000 ⟨"Floor 1", 0, 53891, 0.1905⟩) :=
  ⟨by norm_num, (taxed_amt_amended 80000 60000 _).2.2 (by norm_num)⟩

theorem totalShielded_cons (g t : ℚ) (b : Bracket) (bs : List Bracket) :
    totalShielded g t (b :: bs) =
      (((bracketItems g t b).filter fun it => it.status == "Shielded").map
          fun it => it.amount).sum + totalShielded g t bs := by
  unfold totalShielded
  simp [building_data, List.filter_append, List.map_append, List.sum_append]

theorem totalTaxed_cons (g t : ℚ) (b : Bracket) (bs : List Bracket) :
    totalTaxed g t (b :: bs) =
      (((bracketItems g t b).filter fun it => it.status == "Taxed").map
          fun it => it.amount).sum + totalTaxed g t bs := by
  unfold totalTaxed
  simp [building_data, List.filter_append, List.map_append, List.sum_append]

theorem perShielded_eq (g t : ℚ) (b : Bracket) :
    (((bracketItems g t b).filter fun it => it.status == "Shielded").map
        fun it => it.amount).sum =
      if total_in_bracket g b ≤ 0 then 0 else max 0 (shielded_amt g t b) := by
  unfold bracketItems
  split_ifs with h1 h2 h3 h4
  · rfl
  · rw [max_eq_right (le_of_lt h2)]
    simp [taxed_beq_shielded]
  · rw [max_eq_right (le_of_lt h2)]
    simp
  · rw [max_eq_left (le_of_not_lt h2)]
    simp [taxed_beq_shielded]
  · rw [max_eq_left (le_of_not_lt h2)]
    simp

theorem perTaxed_eq (g t : ℚ) (b : Bracket) :
    (((bracketItems g t b).filter fun it => it.status == "Taxed").map
        fun it => it.amount).sum =
      if total_in_bracket g b ≤ 0 then 0 else taxed_amt t b := by
  unfold bracketItems
  split_ifs with h1 h2 h3 h4
  · rfl
  · simp [shielded_beq_taxed]
  · simp only [shielded_beq_taxed, List.append_nil, List.filter]
    simp
    exact (le_antisymm (le_of_not_lt h3) (taxed_amt_nonneg t b)).symm
  · simp
  · simp
    exact (le_antisymm (le_of_not_lt h4) (taxed_amt_nonneg t b)).symm

/-- C6: monotonicity — for every fixed gross income and every bracket list,
increasing the taxable income never increases the total shielded amount of
`building_data` and never decreases its total taxed amount. -/
theorem monotonicity (gross t1 t2 : ℚ) (bs : List Bracket) (h : t1 ≤ t2) :
    totalShielded gross t2 bs ≤ totalShielded gross t1 bs ∧
      totalTaxed gross t1 bs ≤ totalTaxed gross t2 bs := by
  induction bs with
  | nil => exact ⟨le_refl _, le_refl _⟩
  | cons b bs ih =>
    rw [totalShielded_cons gross t1 b bs, totalShielded_cons gross t2 b bs,
      totalTaxed_cons gross t1 b bs, totalTaxed_cons gross t2 b bs]
    refine ⟨add_le_add ?_ ih.1, add_le_add ?_ ih.2⟩
    · rw [perShielded_eq, perShielded_eq]
      split_ifs with h1
      · exact le_refl 0
      · unfold shielded_amt
        exact max_le_max le_rfl (sub_le_sub_left (taxed_amt_mono b h) _)
    · rw [perTaxed_eq, perTaxed_eq]
      split_ifs with h1
      · exact le_refl 0
      · exact taxed_amt_mono b h

/-- Witness for C6 at `gross = 80000`, taxable incomes `60000 ≤ 70000`, the
program's bracket table. -/
theorem monotonicity_witness :
    (60000 : ℚ) ≤ 70000 ∧
      (totalShielded 80000 70000 BRACKETS ≤
          totalShielded 80000 60000 BRACKETS ∧
        totalTaxed 80000 60000 BRACKETS ≤ totalTaxed 80000 70000 BRACKETS) :=
  ⟨by norm_num, monotonicity 80000 60000 70000 BRACKETS (by norm_num)⟩

/-- C3: the projection simulator is a pure function whose result has length
`horizonYears + 1`, its states carrying the year indices
`0, 1, …, horizonYears` in order.  (`project` is modelled from the spec:
its code is part of the repository but not under `src/`.) -/
theorem project_length (pA pB g infl : ℚ)
    (horizonYears startAge startYear : ℕ) :
    (project pA pB g infl horizonYears startAge startYear).length =
        horizonYears + 1 ∧
      (project pA pB g infl horizonYears startAge startYear).map
          (fun s => s.yearIndex) = List.range (horizonYears + 1) := by
  constructor
  · simp [project]
  · unfold project
    rw [List.map_map]
    have hid : ((fun s : ProjectionState => s.yearIndex) ∘
        projectState pA pB g infl startAge startYear) = id := funext fun y => rfl
    rw [hid, List.map_id]

end Morus
